import Mathlib

/-!
Shallow embedding of the goal/subtask core of the productivity-dashboard
backend: the suggestion fallback (backend/src/services/llmService.js,
generateSubtasksFallback), and the in-memory entity store with its goal and
subtask commands (backend/src/services/goalService.js, exposed through
GoalController).  JavaScript Maps are embedded as association lists keyed by
the entity id; thrown Error objects become Except String results carrying the
thrown message.
-/

namespace Dashboard

/-- Priority enum, from prioritySchema in goalService.js. -/
inductive Priority
  | HIGH
  | MEDIUM
  | LOW
deriving DecidableEq, Repr

/-- Goal status enum, from statusSchema in goalService.js. -/
inductive GoalStatus
  | ACTIVE
  | COMPLETED
  | PAUSED
  | CANCELLED
deriving DecidableEq, Repr

/-- A suggested subtask produced by the fallback generator, with the fields
the fallback fills in (llmService.js, generateSubtasksFallback). -/
structure SuggestedTask where
  title : String
  description : String
  estimatedHours : Nat
  priority : Priority
  dependencies : List String
  skills : List String
  category : String
deriving DecidableEq, Repr

/-- The context object passed to generateSubtasksFallback; the function
destructures only priority and teamSize (with defaults MEDIUM and 1). -/
structure SuggestionContext where
  priority : Option Priority
  teamSize : Option Nat
deriving DecidableEq, Repr

/-- The value returned by generateSubtasksFallback. -/
structure FallbackResult where
  success : Bool
  subtasks : List SuggestedTask
  reasoning : String
  estimatedTotalHours : Nat
  criticalPath : List String
  tips : List String
  generatedBy : String
deriving DecidableEq, Repr

/-- Substring test on character lists: JavaScript String.prototype.includes. -/
def containsSub : List Char → List Char → Bool
  | [], pat => pat.isEmpty
  | c :: t, pat => pat.isPrefixOf (c :: t) || containsSub t pat

/-- JavaScript words.includes(pat) where words is a string. -/
def strIncludes (s pat : String) : Bool :=
  containsSub s.data pat.data

/-- JavaScript String.prototype.toLowerCase, character by character. -/
def toLowerStr (s : String) : String :=
  String.mk (s.data.map Char.toLower)

/-- The leading planning task always pushed first by the fallback. -/
def scopeTask (goalDescription : String) : SuggestedTask :=
  { title := "Define project scope and requirements"
    description := "Clearly outline what needs to be accomplished for: " ++ goalDescription
    estimatedHours := 3
    priority := .HIGH
    dependencies := []
    skills := ["planning", "analysis"]
    category := "planning" }

/-- Setup task pushed when the description mentions develop/build/create. -/
def setupTask : SuggestedTask :=
  { title := "Set up development environment"
    description := "Prepare all necessary tools and configurations"
    estimatedHours := 2
    priority := .HIGH
    dependencies := ["Define project scope and requirements"]
    skills := ["technical setup"]
    category := "execution" }

/-- Implementation task pushed when the description mentions
develop/build/create. -/
def implementTask : SuggestedTask :=
  { title := "Implement core functionality"
    description := "Build the main features and components"
    estimatedHours := 12
    priority := .HIGH
    dependencies := ["Set up development environment"]
    skills := ["development", "coding"]
    category := "execution" }

/-- Testing task pushed when the description mentions test/qa/quality. -/
def testingTask : SuggestedTask :=
  { title := "Conduct thorough testing"
    description := "Test all functionality and edge cases"
    estimatedHours := 4
    priority := .HIGH
    dependencies := ["Implement core functionality"]
    skills := ["testing", "qa"]
    category := "review" }

/-- Deployment task pushed when the description mentions
deploy/launch/release. -/
def deployTask : SuggestedTask :=
  { title := "Prepare for deployment"
    description := "Set up production environment and deployment pipeline"
    estimatedHours := 3
    priority := .MEDIUM
    dependencies := ["Conduct thorough testing"]
    skills := ["devops", "deployment"]
    category := "execution" }

/-- Coordination task pushed when teamSize is greater than 1. -/
def coordTask : SuggestedTask :=
  { title := "Coordinate team activities"
    description := "Regular check-ins and progress updates with team members"
    estimatedHours := 2
    priority := .MEDIUM
    dependencies := []
    skills := ["communication", "project management"]
    category := "communication" }

/-- The closing review task; its dependencies are
subtasks.slice(-1).map(t => t.title), i.e. the title of the task pushed
immediately before it (empty when there is none). -/
def finalReviewTask (preceding : List SuggestedTask) : SuggestedTask :=
  { title := "Final review and documentation"
    description := "Review completed work and create necessary documentation"
    estimatedHours := 2
    priority := .MEDIUM
    dependencies :=
      match preceding.getLast? with
      | some t => [t.title]
      | none => []
    skills := ["documentation", "review"]
    category := "review" }

/-- The full subtasks array generateSubtasksFallback builds before the final
slice(0, 6): leading scope task, keyword-driven tasks, optional coordination
task, closing review task. -/
def fallbackTasks (goalDescription : String) (context : SuggestionContext) : List SuggestedTask :=
  let teamSize := context.teamSize.getD 1
  let words := toLowerStr goalDescription
  let subtasks : List SuggestedTask := [scopeTask goalDescription]
  let subtasks :=
    if strIncludes words "develop" || strIncludes words "build" || strIncludes words "create" then
      subtasks ++ [setupTask, implementTask]
    else subtasks
  let subtasks :=
    if strIncludes words "test" || strIncludes words "qa" || strIncludes words "quality" then
      subtasks ++ [testingTask]
    else subtasks
  let subtasks :=
    if strIncludes words "deploy" || strIncludes words "launch" || strIncludes words "release" then
      subtasks ++ [deployTask]
    else subtasks
  let subtasks :=
    if 1 < teamSize then subtasks ++ [coordTask]
    else subtasks
  subtasks ++ [finalReviewTask subtasks]

/-- generateSubtasksFallback from llmService.js: builds the task list, sums
estimated hours over the whole list, and truncates the returned subtasks to
the first 6. -/
def generateSubtasksFallback (goalDescription : String) (context : SuggestionContext) : FallbackResult :=
  let subtasks := fallbackTasks goalDescription context
  { success := true
    subtasks := subtasks.take 6
    reasoning := "Tasks generated using keyword analysis and best practices for goal completion"
    estimatedTotalHours := (subtasks.map (fun t => t.estimatedHours)).sum
    criticalPath := (subtasks.take 3).map (fun t => t.title)
    tips :=
      ["Break down large tasks into smaller, manageable chunks",
       "Set clear deadlines for each subtask",
       "Review progress regularly and adjust as needed"]
    generatedBy := "fallback-algorithm" }

/-- A stored Goal record (goalService.js).  The fields no claim touches
(dueDate, projectId, timestamps) are not modelled. -/
structure Goal where
  id : String
  title : String
  description : Option String
  priority : Priority
  status : GoalStatus
  ownerId : String
deriving DecidableEq, Repr

/-- A stored Subtask record (goalService.js); timestamps are not modelled. -/
structure Subtask where
  id : String
  title : String
  description : Option String
  completed : Bool
  goalId : String
deriving DecidableEq, Repr

/-- The in-memory entity store: the JavaScript Maps inMemoryGoals and
inMemorySubtasks become association lists keyed by the id field, and the two
id counters are carried explicitly. -/
structure Store where
  goals : List Goal
  subtasks : List Subtask
  goalIdCounter : Nat
  subtaskIdCounter : Nat
deriving DecidableEq, Repr

/-- Map lookup inMemoryGoals.get(goalId). -/
def Store.findGoal (s : Store) (goalId : String) : Option Goal :=
  s.goals.find? (fun g => g.id = goalId)

/-- Map lookup inMemorySubtasks.get(subtaskId). -/
def Store.findSubtask (s : Store) (subtaskId : String) : Option Subtask :=
  s.subtasks.find? (fun t => t.id = subtaskId)

/-- Array.from(inMemorySubtasks.values()).filter(t => t.goalId === goalId),
the subtasks of one goal. -/
def Store.subtasksOf (s : Store) (goalId : String) : List Subtask :=
  s.subtasks.filter (fun t => t.goalId = goalId)

/-- Map.set on the goals map for a key that is already present. -/
def updGoalList (goalId : String) (g' : Goal) (l : List Goal) : List Goal :=
  l.map (fun h => if h.id = goalId then g' else h)

/-- Map.set on the subtasks map for a key that is already present. -/
def updSubtaskList (subtaskId : String) (t' : Subtask) (l : List Subtask) : List Subtask :=
  l.map (fun t => if t.id = subtaskId then t' else t)

/-- inMemoryGoals.set(g'.id, g') for an existing goal. -/
def Store.setGoal (s : Store) (g' : Goal) : Store :=
  { s with goals := updGoalList g'.id g' s.goals }

/-- inMemorySubtasks.set(t'.id, t') for an existing subtask. -/
def Store.setSubtask (s : Store) (t' : Subtask) : Store :=
  { s with subtasks := updSubtaskList t'.id t' s.subtasks }

/-- toggleSubtaskInMemory from goalService.js: missing subtask throws
"Subtask not found"; missing parent goal or foreign owner throws
"Access denied"; otherwise the completed flag is negated and stored. -/
def toggleSubtaskInMemory (userId subtaskId : String) (s : Store) : Except String (Subtask × Store) :=
  match s.findSubtask subtaskId with
  | none => .error "Subtask not found"
  | some subtask =>
    match s.findGoal subtask.goalId with
    | none => .error "Access denied"
    | some goal =>
      if goal.ownerId = userId then
        let subtask' := { subtask with completed := !subtask.completed }
        .ok (subtask', s.setSubtask subtask')
      else .error "Access denied"

/-- The Prisma-backed toggleSubtask from goalService.js, with the Prisma
queries modelled on the same store: findFirst on subtask id joined with the
parent goal's ownerId (a subtask whose goal is absent or foreign-owned is
simply not found by the join), then an update of the completed field.  Any
failure of the joined lookup throws "Subtask not found or access denied". -/
def toggleSubtaskDb (userId subtaskId : String) (s : Store) : Except String (Subtask × Store) :=
  let found :=
    match s.findSubtask subtaskId with
    | none => none
    | some subtask =>
      match s.findGoal subtask.goalId with
      | none => none
      | some goal => if goal.ownerId = userId then some subtask else none
  match found with
  | none => .error "Subtask not found or access denied"
  | some subtask =>
    let subtask' := { subtask with completed := !subtask.completed }
    .ok (subtask', s.setSubtask subtask')

/-- checkAndUpdateGoalCompletionInMemory from goalService.js: on a goal with
at least one subtask, promote to COMPLETED when every subtask is completed
and the status is not already COMPLETED, demote to ACTIVE when some subtask
is incomplete and the status is COMPLETED, otherwise leave the store
unchanged.  There is no special case for PAUSED or CANCELLED. -/
def checkAndUpdateGoalCompletionInMemory (userId goalId : String) (s : Store) : Except String Store :=
  match s.findGoal goalId with
  | none => .error "Goal not found or access denied"
  | some goal =>
    if goal.ownerId = userId then
      let subtasks := s.subtasksOf goalId
      if subtasks.isEmpty then .ok s
      else
        let allCompleted := subtasks.all (fun t => t.completed)
        if allCompleted = true ∧ goal.status ≠ GoalStatus.COMPLETED then
          .ok (s.setGoal { goal with status := .COMPLETED })
        else if allCompleted = false ∧ goal.status = GoalStatus.COMPLETED then
          .ok (s.setGoal { goal with status := .ACTIVE })
        else .ok s
    else .error "Goal not found or access denied"

/-- GoalController.toggleSubtask: the service toggle followed synchronously
by the goal-completion recompute on the toggled subtask's parent goal. -/
def toggleSubtaskCommand (userId subtaskId : String) (s : Store) : Except String (Subtask × Store) :=
  match toggleSubtaskInMemory userId subtaskId s with
  | .error e => .error e
  | .ok (subtask, s₁) =>
    match checkAndUpdateGoalCompletionInMemory userId subtask.goalId s₁ with
    | .error e => .error e
    | .ok s₂ => .ok (subtask, s₂)

/-- deleteGoalInMemory from goalService.js: a missing goal and a
foreign-owned goal throw the same "Goal not found or access denied"; on
success the goal and every subtask whose goalId matches are removed. -/
def deleteGoalInMemory (userId goalId : String) (s : Store) : Except String (String × Store) :=
  match s.findGoal goalId with
  | none => .error "Goal not found or access denied"
  | some goal =>
    if goal.ownerId = userId then
      .ok ("Goal deleted successfully",
        { s with
          goals := s.goals.filter (fun g => g.id ≠ goalId),
          subtasks := s.subtasks.filter (fun t => t.goalId ≠ goalId) })
    else .error "Goal not found or access denied"

/-- The subtask payload GoalController.addSubtask forwards to the service:
only title and description are picked from the request body. -/
structure SubtaskInput where
  title : String
  description : Option String
deriving DecidableEq, Repr

/-- addSubtaskInMemory from goalService.js: ownership-checked, a fresh
subtask id from the counter, completed hard-coded to false. -/
def addSubtaskInMemory (userId goalId : String) (d : SubtaskInput) (s : Store) : Except String (Subtask × Store) :=
  match s.findGoal goalId with
  | none => .error "Goal not found or access denied"
  | some goal =>
    if goal.ownerId = userId then
      let subtaskId := "subtask-" ++ toString s.subtaskIdCounter
      let subtask : Subtask :=
        { id := subtaskId, title := d.title, description := d.description,
          completed := false, goalId := goalId }
      .ok (subtask,
        { s with subtasks := s.subtasks ++ [subtask],
                 subtaskIdCounter := s.subtaskIdCounter + 1 })
    else .error "Goal not found or access denied"

/-- The request body of the Add Subtask route: title, description and a
possible completed flag supplied by the caller. -/
structure SubtaskBody where
  title : Option String
  description : Option String
  completed : Option Bool
deriving DecidableEq, Repr

/-- GoalController.addSubtask: rejects a falsy (absent or empty) title with
"Subtask title is required", then forwards only title and description to
addSubtaskInMemory; the body's completed flag is dropped. -/
def addSubtaskCommand (userId goalId : String) (b : SubtaskBody) (s : Store) : Except String (Subtask × Store) :=
  match b.title with
  | none => .error "Subtask title is required"
  | some t =>
    if t = "" then .error "Subtask title is required"
    else addSubtaskInMemory userId goalId { title := t, description := b.description } s

/-- A raw subtask object supplied at goal creation, before subtaskSchema
validation. -/
structure SubtaskRaw where
  title : Option String
  description : Option String
  completed : Option Bool
deriving DecidableEq, Repr

/-- A raw goal object as received by createGoal, before goalSchema
validation.  An Option field that is none is an absent key. -/
structure GoalRaw where
  title : Option String
  description : Option String
  priority : Option Priority
  status : Option GoalStatus
  subtasks : List SubtaskRaw
deriving DecidableEq, Repr

/-- A subtask accepted by subtaskSchema, defaults applied. -/
structure SubtaskData where
  title : String
  description : Option String
  completed : Bool
deriving DecidableEq, Repr

/-- A goal accepted by goalSchema, defaults applied. -/
structure GoalData where
  title : String
  description : Option String
  priority : Priority
  status : GoalStatus
  subtasks : List SubtaskData
deriving DecidableEq, Repr

/-- subtaskSchema: title is a required string of length at least 1 (zod
min(1), no trimming); completed defaults to false. -/
def parseSubtaskRaw (r : SubtaskRaw) : Except String SubtaskData :=
  match r.title with
  | none => .error "Required"
  | some t =>
    if 1 ≤ t.length then
      .ok { title := t, description := r.description, completed := r.completed.getD false }
    else .error "Subtask title is required"

/-- subtaskSchema applied across a subtasks array, first error wins. -/
def parseSubtaskList : List SubtaskRaw → Except String (List SubtaskData)
  | [] => .ok []
  | r :: rest =>
    match parseSubtaskRaw r with
    | .error e => .error e
    | .ok d =>
      match parseSubtaskList rest with
      | .error e => .error e
      | .ok ds => .ok (d :: ds)

/-- goalSchema from goalService.js: title is a required string of length at
least 1 (zod min(1), no trimming), priority defaults to MEDIUM, status to
ACTIVE, subtasks to the empty array. -/
def parseGoalRaw (r : GoalRaw) : Except String GoalData :=
  match r.title with
  | none => .error "Required"
  | some t =>
    if 1 ≤ t.length then
      match parseSubtaskList r.subtasks with
      | .error e => .error e
      | .ok ds =>
        .ok { title := t, description := r.description,
              priority := r.priority.getD .MEDIUM,
              status := r.status.getD .ACTIVE, subtasks := ds }
    else .error "Goal title is required"

/-- The subtask-creation loop of createGoalInMemory: each supplied subtask
gets a fresh id from the counter and keeps its validated completed flag. -/
def createSubtasksInMemory (goalId : String) : List SubtaskData → Store → List Subtask × Store
  | [], s => ([], s)
  | d :: rest, s =>
    let subtaskId := "subtask-" ++ toString s.subtaskIdCounter
    let st : Subtask :=
      { id := subtaskId, title := d.title, description := d.description,
        completed := d.completed, goalId := goalId }
    let s' := { s with subtasks := s.subtasks ++ [st],
                       subtaskIdCounter := s.subtaskIdCounter + 1 }
    let (rest', s'') := createSubtasksInMemory goalId rest s'
    (st :: rest', s'')

/-- createGoalInMemory from goalService.js: fresh goal id from the counter,
then the subtasks are created under it. -/
def createGoalInMemory (userId : String) (d : GoalData) (s : Store) : (Goal × List Subtask) × Store :=
  let goalId := "goal-" ++ toString s.goalIdCounter
  let goal : Goal :=
    { id := goalId, title := d.title, description := d.description,
      priority := d.priority, status := d.status, ownerId := userId }
  let s₁ := { s with goals := s.goals ++ [goal], goalIdCounter := s.goalIdCounter + 1 }
  let (subs, s₂) := createSubtasksInMemory goalId d.subtasks s₁
  ((goal, subs), s₂)

/-- The createGoal command: goalSchema validation then createGoalInMemory; a
validation failure is a rejected command and the store is untouched. -/
def createGoalCommand (userId : String) (r : GoalRaw) (s : Store) : Except String ((Goal × List Subtask) × Store) :=
  match parseGoalRaw r with
  | .error e => .error e
  | .ok d => .ok (createGoalInMemory userId d s)

/-- A raw partial-update object as received by updateGoal; a none field is
an omitted key (updateGoalSchema = goalSchema.partial()). -/
structure GoalUpdate where
  title : Option String
  description : Option String
  priority : Option Priority
  status : Option GoalStatus
deriving DecidableEq, Repr

/-- updateGoalSchema: every field optional, but a supplied title must still
have length at least 1. -/
def parseGoalUpdate (r : GoalUpdate) : Except String GoalUpdate :=
  match r.title with
  | none => .ok r
  | some t => if 1 ≤ t.length then .ok r else .error "Goal title is required"

/-- The field loop of updateGoalInMemory: only defined keys overwrite. -/
def applyGoalUpdate (g : Goal) (u : GoalUpdate) : Goal :=
  { g with
    title := u.title.getD g.title,
    description := match u.description with | some d => some d | none => g.description,
    priority := u.priority.getD g.priority,
    status := u.status.getD g.status }

/-- updateGoalInMemory from goalService.js: a missing goal and a
foreign-owned goal throw the same "Goal not found or access denied". -/
def updateGoalInMemory (userId goalId : String) (u : GoalUpdate) (s : Store) : Except String (Goal × Store) :=
  match s.findGoal goalId with
  | none => .error "Goal not found or access denied"
  | some goal =>
    if goal.ownerId = userId then
      let goal' := applyGoalUpdate goal u
      .ok (goal', s.setGoal goal')
    else .error "Goal not found or access denied"

/-- The updateGoal command: updateGoalSchema validation then
updateGoalInMemory. -/
def updateGoalCommand (userId goalId : String) (r : GoalUpdate) (s : Store) : Except String (Goal × Store) :=
  match parseGoalUpdate r with
  | .error e => .error e
  | .ok u => updateGoalInMemory userId goalId u s

/-- A store holding one PAUSED goal of user-1 with a single incomplete
subtask. -/
def pausedStore : Store :=
  { goals := [{ id := "goal-1", title := "Launch", description := none,
                priority := .HIGH, status := .PAUSED, ownerId := "user-1" }],
    subtasks := [{ id := "subtask-1", title := "Ship", description := none,
                   completed := false, goalId := "goal-1" }],
    goalIdCounter := 2, subtaskIdCounter := 2 }

/-- A store holding one ACTIVE goal of user-1 with a single incomplete
subtask (a completion-consistent state). -/
def activeStore : Store :=
  { goals := [{ id := "goal-1", title := "Launch", description := none,
                priority := .HIGH, status := .ACTIVE, ownerId := "user-1" }],
    subtasks := [{ id := "subtask-1", title := "Ship", description := none,
                   completed := false, goalId := "goal-1" }],
    goalIdCounter := 2, subtaskIdCounter := 2 }

/-- activeStore after one successful toggle of subtask-1: the subtask is
completed and the goal was promoted to COMPLETED. -/
def activeStoreToggled : Store :=
  { goals := [{ id := "goal-1", title := "Launch", description := none,
                priority := .HIGH, status := .COMPLETED, ownerId := "user-1" }],
    subtasks := [{ id := "subtask-1", title := "Ship", description := none,
                   completed := true, goalId := "goal-1" }],
    goalIdCounter := 2, subtaskIdCounter := 2 }

/-- The toggled subtask of activeStore. -/
def toggledSubtask : Subtask :=
  { id := "subtask-1", title := "Ship", description := none,
    completed := true, goalId := "goal-1" }

/-- The original subtask of activeStore and pausedStore. -/
def originalSubtask : Subtask :=
  { id := "subtask-1", title := "Ship", description := none,
    completed := false, goalId := "goal-1" }

/-- A store whose only goal (and its subtask) belong to another user. -/
def foreignStore : Store :=
  { goals := [{ id := "goal-1", title := "Launch", description := none,
                priority := .HIGH, status := .ACTIVE, ownerId := "other-user" }],
    subtasks := [{ id := "subtask-1", title := "Ship", description := none,
                   completed := false, goalId := "goal-1" }],
    goalIdCounter := 2, subtaskIdCounter := 2 }

/-- The empty store. -/
def emptyStore : Store :=
  { goals := [], subtasks := [], goalIdCounter := 1, subtaskIdCounter := 1 }

/-- pausedStore after deleting goal-1. -/
def postDeleteStore : Store :=
  { goals := [], subtasks := [], goalIdCounter := 2, subtaskIdCounter := 2 }

/-- The subtask produced by adding "New" to goal-1 of pausedStore. -/
def newSubtask : Subtask :=
  { id := "subtask-2", title := "New", description := none,
    completed := false, goalId := "goal-1" }

/-- pausedStore after adding newSubtask. -/
def pausedStoreWithNew : Store :=
  { goals := [{ id := "goal-1", title := "Launch", description := none,
                priority := .HIGH, status := .PAUSED, ownerId := "user-1" }],
    subtasks := [{ id := "subtask-1", title := "Ship", description := none,
                   completed := false, goalId := "goal-1" },
                 newSubtask],
    goalIdCounter := 2, subtaskIdCounter := 3 }

theorem find?_map_upd {α : Type} (key : α → String) (k : String) (v a : α) (l : List α)
    (hf : l.find? (fun x => key x = k) = some a) (hv : key v = k) :
    (l.map (fun x => if key x = k then v else x)).find? (fun x => key x = k) = some v := by
  induction l with
  | nil => simp at hf
  | cons b t ih =>
    by_cases hb : key b = k
    · rw [List.map_cons, if_pos hb]
      exact List.find?_cons_of_pos _ (by simp [hv])
    · rw [List.find?_cons_of_neg _ (by simp [hb])] at hf
      rw [List.map_cons, if_neg hb, List.find?_cons_of_neg _ (by simp [hb])]
      exact ih hf

theorem map_upd_eq_self {α : Type} (key : α → String) (k : String) (v : α) (l : List α)
    (h : ∀ x ∈ l, key x = k → x = v) :
    l.map (fun x => if key x = k then v else x) = l := by
  induction l with
  | nil => rfl
  | cons b t ih =>
    simp only [List.map_cons, List.cons.injEq]
    refine ⟨?_, ih (fun x hx hk => h x (List.mem_cons_of_mem b hx) hk)⟩
    by_cases hb : key b = k
    · rw [if_pos hb, h b (List.mem_cons_self b t) hb]
    · rw [if_neg hb]

theorem map_upd_upd {α : Type} (key : α → String) (k : String) (v₁ v₂ : α) (l : List α)
    (h1 : key v₁ = k) :
    (l.map (fun x => if key x = k then v₁ else x)).map (fun x => if key x = k then v₂ else x) =
      l.map (fun x => if key x = k then v₂ else x) := by
  rw [List.map_map]
  refine List.map_congr_left (fun a _ => ?_)
  by_cases ha : key a = k
  · simp [Function.comp, ha, h1]
  · simp [Function.comp, ha]

theorem eq_of_key_mem_of_nodup {α : Type} (key : α → String) (k : String) (v : α) (l : List α)
    (hnd : (l.map key).Nodup) (hf : l.find? (fun x => key x = k) = some v) :
    ∀ x ∈ l, key x = k → x = v := by
  induction l with
  | nil => intro x hx; simp at hx
  | cons b t ih =>
    simp only [List.map_cons, List.nodup_cons] at hnd
    intro x hx hk
    by_cases hb : key b = k
    · have hv : v = b := by
        simp [List.find?_cons, hb] at hf
        exact hf.symm
      rcases List.mem_cons.mp hx with rfl | hxt
      · exact hv.symm
      · exfalso
        apply hnd.1
        rw [hb, ← hk]
        exact List.mem_map.mpr ⟨x, hxt, rfl⟩
    · rcases List.mem_cons.mp hx with rfl | hxt
      · exact absurd hk hb
      · have hf' : t.find? (fun x => key x = k) = some v := by
          simpa [List.find?_cons, hb] using hf
        exact ih hnd.2 hf' x hxt hk

theorem findGoal_setSubtask (s : Store) (t : Subtask) (gid : String) :
    (s.setSubtask t).findGoal gid = s.findGoal gid := rfl

theorem subtasksOf_setGoal (s : Store) (g : Goal) (gid : String) :
    (s.setGoal g).subtasksOf gid = s.subtasksOf gid := rfl

theorem findGoal_setGoal (s : Store) (g g' : Goal) (gid : String)
    (hg : s.findGoal gid = some g) (hid : g'.id = gid) :
    (s.setGoal g').findGoal gid = some g' := by
  show (updGoalList g'.id g' s.goals).find? (fun h => h.id = gid) = some g'
  rw [hid]
  exact find?_map_upd Goal.id gid g' g s.goals hg hid

theorem findSubtask_setSubtask (s : Store) (t t' : Subtask) (sid : String)
    (ht : s.findSubtask sid = some t) (hid : t'.id = sid) :
    (s.setSubtask t').findSubtask sid = some t' := by
  show (updSubtaskList t'.id t' s.subtasks).find? (fun x => x.id = sid) = some t'
  rw [hid]
  exact find?_map_upd Subtask.id sid t' t s.subtasks ht hid

theorem toggleSubtaskInMemory_ok (u sid : String) (s : Store) (st : Subtask) (g : Goal)
    (hst : s.findSubtask sid = some st) (hg : s.findGoal st.goalId = some g)
    (how : g.ownerId = u) :
    toggleSubtaskInMemory u sid s =
      .ok ({ st with completed := !st.completed },
           s.setSubtask { st with completed := !st.completed }) := by
  simp [toggleSubtaskInMemory, hst, hg, how]

theorem checkAndUpdate_promote (u gid : String) (s : Store) (g : Goal)
    (hg : s.findGoal gid = some g) (how : g.ownerId = u)
    (hne : s.subtasksOf gid ≠ [])
    (hall : ((s.subtasksOf gid).all fun t => t.completed) = true)
    (hnc : g.status ≠ GoalStatus.COMPLETED) :
    checkAndUpdateGoalCompletionInMemory u gid s =
      .ok (s.setGoal { g with status := .COMPLETED }) := by
  simp [checkAndUpdateGoalCompletionInMemory, hg, how, List.isEmpty_iff, hne, hall, hnc]

theorem checkAndUpdate_demote (u gid : String) (s : Store) (g : Goal)
    (hg : s.findGoal gid = some g) (how : g.ownerId = u)
    (hne : s.subtasksOf gid ≠ [])
    (hall : ((s.subtasksOf gid).all fun t => t.completed) = false)
    (hc : g.status = GoalStatus.COMPLETED) :
    checkAndUpdateGoalCompletionInMemory u gid s =
      .ok (s.setGoal { g with status := .ACTIVE }) := by
  simp [checkAndUpdateGoalCompletionInMemory, hg, how, List.isEmpty_iff, hne, hall, hc]

theorem checkAndUpdate_noop (u gid : String) (s : Store) (g : Goal)
    (hg : s.findGoal gid = some g) (how : g.ownerId = u)
    (hne : s.subtasksOf gid ≠ [])
    (hiff : (((s.subtasksOf gid).all fun t => t.completed) = true ↔ g.status = GoalStatus.COMPLETED)) :
    checkAndUpdateGoalCompletionInMemory u gid s = .ok s := by
  cases hall : ((s.subtasksOf gid).all fun t => t.completed) with
  | true =>
    have hc : g.status = GoalStatus.COMPLETED := hiff.mp hall
    simp [checkAndUpdateGoalCompletionInMemory, hg, how, List.isEmpty_iff, hne, hall, hc]
  | false =>
    have hc : g.status ≠ GoalStatus.COMPLETED := fun h => by
      rw [hiff.mpr h] at hall; cases hall
    simp [checkAndUpdateGoalCompletionInMemory, hg, how, List.isEmpty_iff, hne, hall, hc]

theorem all_completed_false_of_mem (l : List Subtask) (gid : String) (x : Subtask)
    (hx : x ∈ l) (hgid : x.goalId = gid) (hc : x.completed = false) :
    ((l.filter fun t => t.goalId = gid).all fun t => t.completed) = false := by
  cases hall : (l.filter fun t => t.goalId = gid).all fun t => t.completed with
  | false => rfl
  | true =>
    exfalso
    have := List.all_eq_true.mp hall x (List.mem_filter.mpr ⟨hx, by simp [hgid]⟩)
    simp [hc] at this

theorem Store.ext4 (a b : Store) (h1 : a.goals = b.goals) (h2 : a.subtasks = b.subtasks)
    (h3 : a.goalIdCounter = b.goalIdCounter) (h4 : a.subtaskIdCounter = b.subtaskIdCounter) :
    a = b := by
  cases a; cases b; simp_all

theorem subtasksOf_congr (a b : Store) (gid : String) (h : a.subtasks = b.subtasks) :
    a.subtasksOf gid = b.subtasksOf gid := by
  unfold Store.subtasksOf; rw [h]

theorem fallbackTasks_concat (d : String) (c : SuggestionContext) :
    ∃ pre, fallbackTasks d c = pre ++ [finalReviewTask pre] := by
  unfold fallbackTasks
  exact ⟨_, rfl⟩

/-- C7: the suggestion fallback is a pure total function: equal description
strings and equal contexts give equal results, and it always succeeds (it is
a total Lean function built from total operations, mirroring the source
which uses no randomness, clock or external state). -/
theorem fallback_pure_total (d₁ d₂ : String) (c₁ c₂ : SuggestionContext)
    (hd : d₁ = d₂) (hc : c₁ = c₂) :
    generateSubtasksFallback d₁ c₁ = generateSubtasksFallback d₂ c₂ ∧
    (generateSubtasksFallback d₁ c₁).success = true := by
  subst hd hc
  exact ⟨rfl, rfl⟩

theorem fallback_pure_total_witness :
    generateSubtasksFallback "plan" { priority := none, teamSize := none } =
      generateSubtasksFallback "plan" { priority := none, teamSize := none } ∧
    (generateSubtasksFallback "plan" { priority := none, teamSize := none }).success = true :=
  fallback_pure_total "plan" "plan"
    { priority := none, teamSize := none } { priority := none, teamSize := none } rfl rfl

/-- C8: on description "build and test a checkout flow" with teamSize 1 the
fallback returns, in order, the scope-definition task (planning), the setup
task, the implementation task (execution), the testing task and the closing
review task (review) — and nothing else, in particular no deployment task
and no coordination task. -/
theorem fallback_checkout_scenario :
    ((generateSubtasksFallback "build and test a checkout flow"
        { priority := none, teamSize := some 1 }).subtasks.map fun t => (t.title, t.category)) =
      [("Define project scope and requirements", "planning"),
       ("Set up development environment", "execution"),
       ("Implement core functionality", "execution"),
       ("Conduct thorough testing", "review"),
       ("Final review and documentation", "review")] := by decide

/-- C5 counterexample: on description "build test deploy" with teamSize 2
all keyword groups fire, seven tasks are generated, and slice(0, 6) cuts
off the closing review task: the returned list ends with the coordination
task and contains no "Final review and documentation" element at all. -/
theorem fallback_review_truncated_cex :
    ((generateSubtasksFallback "build test deploy"
        { priority := none, teamSize := some 2 }).subtasks.map fun t => t.title) =
      ["Define project scope and requirements", "Set up development environment",
       "Implement core functionality", "Conduct thorough testing",
       "Prepare for deployment", "Coordinate team activities"] ∧
    ((generateSubtasksFallback "build test deploy"
        { priority := none, teamSize := some 2 }).subtasks.all
          fun t => t.title ≠ "Final review and documentation") = true := by decide

/-- C5 (amended): the fallback returns at most 6 subtasks, and whenever at
most 6 tasks were generated before truncation (that is, unless every
keyword group fires and teamSize exceeds 1) the last returned subtask is
the closing review task "Final review and documentation". -/
theorem fallback_limit_and_review (d : String) (c : SuggestionContext) :
    (generateSubtasksFallback d c).subtasks.length ≤ 6 ∧
    ((fallbackTasks d c).length ≤ 6 →
      ((generateSubtasksFallback d c).subtasks.getLast?.map fun t => t.title) =
        some "Final review and documentation") := by
  have hsub : (generateSubtasksFallback d c).subtasks = (fallbackTasks d c).take 6 := rfl
  constructor
  · rw [hsub]; simp [List.length_take]
  · intro hle
    rw [hsub, List.take_of_length_le hle]
    obtain ⟨pre, hpre⟩ := fallbackTasks_concat d c
    rw [hpre]
    simp [finalReviewTask]

theorem fallback_limit_and_review_witness :
    (generateSubtasksFallback "build and test a checkout flow"
      { priority := none, teamSize := some 1 }).subtasks.length ≤ 6 ∧
    ((generateSubtasksFallback "build and test a checkout flow"
        { priority := none, teamSize := some 1 }).subtasks.getLast?.map fun t => t.title) =
      some "Final review and documentation" :=
  ⟨(fallback_limit_and_review "build and test a checkout flow"
      { priority := none, teamSize := some 1 }).1,
   (fallback_limit_and_review "build and test a checkout flow"
      { priority := none, teamSize := some 1 }).2 (by decide)⟩

/-- C2 counterexample: on a subtask whose parent goal belongs to another
user, the Prisma-backed toggle reports "Subtask not found or access denied"
while the in-memory toggle reports "Access denied": the two implementations
are observably different (the controller returns the thrown message to the
caller). -/
theorem toggle_dual_storage_cex :
    toggleSubtaskDb "user-1" "subtask-1" foreignStore =
      .error "Subtask not found or access denied" ∧
    toggleSubtaskInMemory "user-1" "subtask-1" foreignStore = .error "Access denied" ∧
    ("Subtask not found or access denied" : String) ≠ "Access denied" :=
  ⟨rfl, rfl, by decide⟩

/-- C2 (amended): the Prisma-backed and in-memory toggle implementations
succeed on exactly the same inputs and then produce identical results (the
same updated subtask and the same store); they differ only in the error
message thrown on failure. -/
theorem toggle_dual_storage_agree (u sid : String) (s : Store) :
    (∃ r, toggleSubtaskDb u sid s = .ok r ∧ toggleSubtaskInMemory u sid s = .ok r) ∨
    (∃ e₁ e₂, toggleSubtaskDb u sid s = .error e₁ ∧ toggleSubtaskInMemory u sid s = .error e₂) := by
  cases hfs : s.findSubtask sid with
  | none =>
    exact .inr ⟨"Subtask not found or access denied", "Subtask not found",
      by simp [toggleSubtaskDb, hfs], by simp [toggleSubtaskInMemory, hfs]⟩
  | some st =>
    cases hfg : s.findGoal st.goalId with
    | none =>
      exact .inr ⟨"Subtask not found or access denied", "Access denied",
        by simp [toggleSubtaskDb, hfs, hfg], by simp [toggleSubtaskInMemory, hfs, hfg]⟩
    | some g =>
      by_cases how : g.ownerId = u
      · exact .inl ⟨({ st with completed := !st.completed },
            s.setSubtask { st with completed := !st.completed }),
          by simp [toggleSubtaskDb, hfs, hfg, how],
          toggleSubtaskInMemory_ok u sid s st g hfs hfg how⟩
      · exact .inr ⟨"Subtask not found or access denied", "Access denied",
          by simp [toggleSubtaskDb, hfs, hfg, how],
          by simp [toggleSubtaskInMemory, hfs, hfg, how]⟩

/-- C4 counterexample: in the in-memory implementation a toggle on a missing
subtask reports "Subtask not found" while a toggle on an existing subtask of
a foreign-owned goal reports "Access denied" — the two cases are
distinguishable by the caller, leaking existence. -/
theorem notfound_leak_cex :
    toggleSubtaskInMemory "user-1" "missing" foreignStore = .error "Subtask not found" ∧
    toggleSubtaskInMemory "user-1" "subtask-1" foreignStore = .error "Access denied" ∧
    ("Subtask not found" : String) ≠ "Access denied" :=
  ⟨rfl, rfl, by decide⟩

/-- C4 (amended): the claim holds for goal-level operations — delete and
update return the identical "Goal not found or access denied" whether the
goal is absent or owned by a different user — but the in-memory subtask
toggle distinguishes "Subtask not found" from "Access denied". -/
theorem goal_notfound_uniform (u gid : String) (r : GoalUpdate) (s : Store) (g : Goal) :
    (s.findGoal gid = none →
      deleteGoalInMemory u gid s = .error "Goal not found or access denied" ∧
      updateGoalInMemory u gid r s = .error "Goal not found or access denied") ∧
    (s.findGoal gid = some g → g.ownerId ≠ u →
      deleteGoalInMemory u gid s = .error "Goal not found or access denied" ∧
      updateGoalInMemory u gid r s = .error "Goal not found or access denied") := by
  constructor
  · intro hg
    exact ⟨by simp [deleteGoalInMemory, hg], by simp [updateGoalInMemory, hg]⟩
  · intro hg how
    exact ⟨by simp [deleteGoalInMemory, hg, how], by simp [updateGoalInMemory, hg, how]⟩

theorem goal_notfound_uniform_witness :
    deleteGoalInMemory "user-1" "goal-9" emptyStore = .error "Goal not found or access denied" ∧
    updateGoalInMemory "user-1" "goal-9"
      { title := none, description := none, priority := none, status := none } emptyStore =
      .error "Goal not found or access denied" :=
  (goal_notfound_uniform "user-1" "goal-9"
    { title := none, description := none, priority := none, status := none } emptyStore
    { id := "goal-9", title := "x", description := none, priority := .MEDIUM,
      status := .ACTIVE, ownerId := "user-1" }).1 rfl

/-- C9: when deleteGoalInMemory succeeds, the goal is no longer retrievable
and no subtask whose parent is that goal remains in the store. -/
theorem delete_goal_no_orphans (u gid : String) (s : Store) (m : String) (s' : Store)
    (h : deleteGoalInMemory u gid s = .ok (m, s')) :
    s'.findGoal gid = none ∧ ∀ st ∈ s'.subtasks, st.goalId ≠ gid := by
  cases hg : s.findGoal gid with
  | none => simp [deleteGoalInMemory, hg] at h
  | some g =>
    by_cases how : g.ownerId = u
    · simp only [deleteGoalInMemory, hg, how, if_true, if_pos, Except.ok.injEq,
        Prod.mk.injEq] at h
      obtain ⟨-, hs⟩ := h
      subst hs
      constructor
      · simp only [Store.findGoal]
        rw [List.find?_eq_none]
        intro a ha
        have h2 := (List.mem_filter.mp ha).2
        simp at h2 ⊢
        exact h2
      · intro st hst
        have h2 := (List.mem_filter.mp hst).2
        simpa using h2
    · simp [deleteGoalInMemory, hg, how] at h

theorem delete_goal_no_orphans_witness :
    postDeleteStore.findGoal "goal-1" = none ∧
    ∀ st ∈ postDeleteStore.subtasks, st.goalId ≠ "goal-1" :=
  delete_goal_no_orphans "user-1" "goal-1" pausedStore "Goal deleted successfully"
    postDeleteStore (by rfl)

/-- C10: a subtask created through the Add Subtask command always has
completed = false, and the command's outcome is entirely independent of the
completed field of the request body (the controller forwards only title and
description to the store). -/
theorem add_subtask_completed_false (u gid : String) (b : SubtaskBody) (s : Store)
    (st : Subtask) (s' : Store) (c : Option Bool)
    (h : addSubtaskCommand u gid b s = .ok (st, s')) :
    st.completed = false ∧
    addSubtaskCommand u gid { b with completed := c } s = .ok (st, s') := by
  refine ⟨?_, by cases b; exact h⟩
  cases hbt : b.title with
  | none => simp [addSubtaskCommand, hbt] at h
  | some t =>
    by_cases ht : t = ""
    · simp [addSubtaskCommand, hbt, ht] at h
    · cases hfg : s.findGoal gid with
      | none => simp [addSubtaskCommand, addSubtaskInMemory, hbt, ht, hfg] at h
      | some g =>
        by_cases how : g.ownerId = u
        · simp only [addSubtaskCommand, addSubtaskInMemory, hbt, ht, hfg, how,
            if_true, if_false, if_neg, if_pos, Except.ok.injEq, Prod.mk.injEq] at h
          obtain ⟨hst, -⟩ := h
          rw [← hst]
        · simp [addSubtaskCommand, addSubtaskInMemory, hbt, ht, hfg, how] at h

theorem add_subtask_completed_false_witness :
    newSubtask.completed = false ∧
    addSubtaskCommand "user-1" "goal-1"
      { title := some "New", description := none, completed := some true } pausedStore =
      .ok (newSubtask, pausedStoreWithNew) :=
  add_subtask_completed_false "user-1" "goal-1"
    { title := some "New", description := none, completed := some false } pausedStore
    newSubtask pausedStoreWithNew (some true) (by rfl)

theorem createGoalInMemory_title (u : String) (d : GoalData) (s : Store) :
    ((createGoalInMemory u d s).1.1).title = d.title := rfl

/-- C6 counterexample: a whitespace-only title passes goalSchema — zod
min(1) counts characters and nothing is trimmed — so createGoal accepts and
stores a title consisting solely of whitespace, which is empty after
trimming. -/
theorem title_whitespace_accepted_cex :
    (match createGoalCommand "user-1"
        { title := some " ", description := none, priority := none, status := none, subtasks := [] }
        emptyStore with
     | .ok ((g, _), _) => some g.title
     | .error _ => none) = some " " ∧
    (" " : String).data.all Char.isWhitespace = true := ⟨rfl, by decide⟩

/-- C6 (amended): createGoal rejects an absent title ("Required") and a
zero-length title ("Goal title is required") as a rejected command that
never reaches the store; updateGoal likewise rejects a supplied zero-length
title; an accepted goal's stored title has length at least 1 — but it is
not trimmed, so a whitespace-only title is accepted. -/
theorem title_validation (u gid : String) (r : GoalRaw) (ru : GoalUpdate) (s : Store) :
    (r.title = none → createGoalCommand u r s = .error "Required") ∧
    (r.title = some "" → createGoalCommand u r s = .error "Goal title is required") ∧
    (ru.title = some "" → updateGoalCommand u gid ru s = .error "Goal title is required") ∧
    (∀ g subs s', createGoalCommand u r s = .ok ((g, subs), s') → 1 ≤ g.title.length) := by
  refine ⟨?_, ?_, ?_, ?_⟩
  · intro h; simp [createGoalCommand, parseGoalRaw, h]
  · intro h; simp [createGoalCommand, parseGoalRaw, h]
  · intro h; simp [updateGoalCommand, parseGoalUpdate, h]
  · intro g subs s' h
    cases hrt : r.title with
    | none => simp [createGoalCommand, parseGoalRaw, hrt] at h
    | some t =>
      by_cases hlen : 1 ≤ t.length
      · cases hps : parseSubtaskList r.subtasks with
        | error e => simp [createGoalCommand, parseGoalRaw, hrt, hlen, hps] at h
        | ok ds =>
          simp only [createGoalCommand, parseGoalRaw, hrt, hlen, hps, if_pos,
            if_true, Except.ok.injEq] at h
          have htitle : t = g.title := by
            have h2 := congrArg (fun p => p.1.1.title) h
            simpa [createGoalInMemory_title] using h2
          rw [← htitle]
          exact hlen
      · simp [createGoalCommand, parseGoalRaw, hrt, hlen] at h

theorem title_validation_witness :
    createGoalCommand "user-1"
      { title := none, description := none, priority := none, status := none, subtasks := [] }
      emptyStore = .error "Required" :=
  (title_validation "user-1" "goal-1"
    { title := none, description := none, priority := none, status := none, subtasks := [] }
    { title := none, description := none, priority := none, status := none } emptyStore).1 rfl

/-- C1 counterexample: pausedStore holds a PAUSED goal with one incomplete
subtask; toggling that subtask makes the recompute promote the goal to
COMPLETED — the recompute does not skip PAUSED (or CANCELLED) goals, so the
claimed override does not hold and a paused goal is resurrected. -/
theorem paused_override_cex :
    ((pausedStore.findGoal "goal-1").map fun g => g.status) = some .PAUSED ∧
    (match toggleSubtaskCommand "user-1" "subtask-1" pausedStore with
     | .ok (_, s) => (s.findGoal "goal-1").map fun g => g.status
     | .error _ => none) = some .COMPLETED := ⟨rfl, rfl⟩

/-- C1 (amended): after any successful toggle command the parent goal's
status is COMPLETED if and only if every one of its subtasks is completed —
with no exception for PAUSED or CANCELLED: a PAUSED or CANCELLED goal whose
last incomplete subtask is toggled complete is promoted to COMPLETED, while
one that still has an incomplete subtask keeps its status (only a COMPLETED
goal is ever demoted to ACTIVE). -/
theorem goal_completion_iff_after_toggle (u sid : String) (s : Store)
    (st : Subtask) (s' : Store) (g : Goal)
    (h : toggleSubtaskCommand u sid s = .ok (st, s'))
    (hg : s'.findGoal st.goalId = some g) :
    (g.status = GoalStatus.COMPLETED ↔
      ((s'.subtasksOf st.goalId).all fun t => t.completed) = true) := by
  cases hfs : s.findSubtask sid with
  | none => simp [toggleSubtaskCommand, toggleSubtaskInMemory, hfs] at h
  | some st₀ =>
    cases hfg : s.findGoal st₀.goalId with
    | none => simp [toggleSubtaskCommand, toggleSubtaskInMemory, hfs, hfg] at h
    | some g₀ =>
      by_cases how : g₀.ownerId = u
      · have htog := toggleSubtaskInMemory_ok u sid s st₀ g₀ hfs hfg how
        have hid₀ : st₀.id = sid := by simpa using List.find?_some hfs
        have hgid₀ : g₀.id = st₀.goalId := by simpa using List.find?_some hfg
        have hmem₀ : st₀ ∈ s.subtasks := List.mem_of_find?_eq_some hfs
        have hfgid : ({ st₀ with completed := !st₀.completed } : Subtask).goalId = st₀.goalId := rfl
        have hmemA : ({ st₀ with completed := !st₀.completed } : Subtask) ∈
            (s.setSubtask { st₀ with completed := !st₀.completed }).subtasks := by
          show _ ∈ updSubtaskList _ _ s.subtasks
          unfold updSubtaskList
          exact List.mem_map.mpr ⟨st₀, hmem₀, by simp⟩
        have hneA : (s.setSubtask { st₀ with completed := !st₀.completed }).subtasksOf st₀.goalId ≠ [] := by
          have hmemf : ({ st₀ with completed := !st₀.completed } : Subtask) ∈
              (s.setSubtask { st₀ with completed := !st₀.completed }).subtasksOf st₀.goalId := by
            show _ ∈ List.filter _ _
            exact List.mem_filter.mpr ⟨hmemA, by simp⟩
          exact List.ne_nil_of_mem hmemf
        have hfgA : (s.setSubtask { st₀ with completed := !st₀.completed }).findGoal st₀.goalId = some g₀ := hfg
        cases hall : ((s.setSubtask { st₀ with completed := !st₀.completed }).subtasksOf st₀.goalId).all
            (fun t => t.completed) with
        | true =>
          by_cases hC : g₀.status = GoalStatus.COMPLETED
          · have hchk := checkAndUpdate_noop u st₀.goalId
              (s.setSubtask { st₀ with completed := !st₀.completed }) g₀ hfgA how hneA
              (Iff.intro (fun _ => hC) (fun _ => hall))
            have hcmd : toggleSubtaskCommand u sid s =
                .ok ({ st₀ with completed := !st₀.completed },
                     s.setSubtask { st₀ with completed := !st₀.completed }) := by
              simp [toggleSubtaskCommand, htog, hfgid, hchk]
            rw [hcmd] at h
            simp only [Except.ok.injEq, Prod.mk.injEq] at h
            obtain ⟨h1, h2⟩ := h
            subst h1
            subst h2
            rw [hfgA] at hg
            injection hg with hg
            subst hg
            simp [hC, hall]
          · have hchk := checkAndUpdate_promote u st₀.goalId
              (s.setSubtask { st₀ with completed := !st₀.completed }) g₀ hfgA how hneA hall hC
            have hcmd : toggleSubtaskCommand u sid s =
                .ok ({ st₀ with completed := !st₀.completed },
                     (s.setSubtask { st₀ with completed := !st₀.completed }).setGoal
                       { g₀ with status := .COMPLETED }) := by
              simp [toggleSubtaskCommand, htog, hfgid, hchk]
            rw [hcmd] at h
            simp only [Except.ok.injEq, Prod.mk.injEq] at h
            obtain ⟨h1, h2⟩ := h
            subst h1
            subst h2
            have hfg2 := findGoal_setGoal (s.setSubtask { st₀ with completed := !st₀.completed })
              g₀ { g₀ with status := GoalStatus.COMPLETED } st₀.goalId hfgA hgid₀
            rw [hfg2] at hg
            injection hg with hg
            subst hg
            simpa using hall
        | false =>
          by_cases hC : g₀.status = GoalStatus.COMPLETED
          · have hchk := checkAndUpdate_demote u st₀.goalId
              (s.setSubtask { st₀ with completed := !st₀.completed }) g₀ hfgA how hneA hall hC
            have hcmd : toggleSubtaskCommand u sid s =
                .ok ({ st₀ with completed := !st₀.completed },
                     (s.setSubtask { st₀ with completed := !st₀.completed }).setGoal
                       { g₀ with status := .ACTIVE }) := by
              simp [toggleSubtaskCommand, htog, hfgid, hchk]
            rw [hcmd] at h
            simp only [Except.ok.injEq, Prod.mk.injEq] at h
            obtain ⟨h1, h2⟩ := h
            subst h1
            subst h2
            have hfg2 := findGoal_setGoal (s.setSubtask { st₀ with completed := !st₀.completed })
              g₀ { g₀ with status := GoalStatus.ACTIVE } st₀.goalId hfgA hgid₀
            rw [hfg2] at hg
            injection hg with hg
            subst hg
            simpa using hall
          · have hchk := checkAndUpdate_noop u st₀.goalId
              (s.setSubtask { st₀ with completed := !st₀.completed }) g₀ hfgA how hneA
              (Iff.intro (fun hh => absurd hh (by simp [hall])) (fun hh => absurd hh hC))
            have hcmd : toggleSubtaskCommand u sid s =
                .ok ({ st₀ with completed := !st₀.completed },
                     s.setSubtask { st₀ with completed := !st₀.completed }) := by
              simp [toggleSubtaskCommand, htog, hfgid, hchk]
            rw [hcmd] at h
            simp only [Except.ok.injEq, Prod.mk.injEq] at h
            obtain ⟨h1, h2⟩ := h
            subst h1
            subst h2
            rw [hfgA] at hg
            injection hg with hg
            subst hg
            simp [hC, hall]
      · simp [toggleSubtaskCommand, toggleSubtaskInMemory, hfs, hfg, how] at h

theorem goal_completion_iff_witness :
    ((⟨"goal-1", "Launch", none, .HIGH, .COMPLETED, "user-1"⟩ : Goal).status =
        GoalStatus.COMPLETED ↔
      ((activeStoreToggled.subtasksOf "goal-1").all fun t => t.completed) = true) :=
  goal_completion_iff_after_toggle "user-1" "subtask-1" activeStore
    toggledSubtask activeStoreToggled
    ⟨"goal-1", "Launch", none, .HIGH, .COMPLETED, "user-1"⟩ (by rfl) (by rfl)

theorem updGoal_collapse (l : List Goal) (g₀ gA gB : Goal) (hA : gA.id = g₀.id) :
    updGoalList g₀.id gB (updGoalList g₀.id gA l) = updGoalList g₀.id gB l := by
  unfold updGoalList
  exact map_upd_upd Goal.id g₀.id gA gB l hA

theorem updGoal_restore (l : List Goal) (gid : String) (g₀ : Goal)
    (hnd : (l.map Goal.id).Nodup) (hf : l.find? (fun h => h.id = gid) = some g₀) :
    updGoalList g₀.id g₀ l = l := by
  have hgid : g₀.id = gid := by simpa using List.find?_some hf
  unfold updGoalList
  apply map_upd_eq_self
  intro x hx hk
  exact eq_of_key_mem_of_nodup Goal.id gid g₀ l hnd hf x hx (by rw [hk, hgid])

theorem updSubtask_collapse (l : List Subtask) (t₀ tA tB : Subtask) (hA : tA.id = t₀.id) :
    updSubtaskList t₀.id tB (updSubtaskList t₀.id tA l) = updSubtaskList t₀.id tB l := by
  unfold updSubtaskList
  exact map_upd_upd Subtask.id t₀.id tA tB l hA

theorem updSubtask_restore (l : List Subtask) (sid : String) (t₀ : Subtask)
    (hnd : (l.map Subtask.id).Nodup) (hf : l.find? (fun x => x.id = sid) = some t₀) :
    updSubtaskList t₀.id t₀ l = l := by
  have hid : t₀.id = sid := by simpa using List.find?_some hf
  unfold updSubtaskList
  apply map_upd_eq_self
  intro x hx hk
  exact eq_of_key_mem_of_nodup Subtask.id sid t₀ l hnd hf x hx (by rw [hk, hid])

theorem updGoal_roundtrip (l : List Goal) (gid : String) (g₀ gMid gEnd : Goal)
    (hnd : (l.map Goal.id).Nodup) (hf : l.find? (fun h => h.id = gid) = some g₀)
    (hMid : gMid.id = g₀.id) (hEnd : gEnd = g₀) :
    updGoalList g₀.id gEnd (updGoalList g₀.id gMid l) = l := by
  rw [updGoal_collapse l g₀ gMid gEnd hMid, hEnd]
  exact updGoal_restore l gid g₀ hnd hf

/-- C3 counterexample: on pausedStore (PAUSED goal, one incomplete subtask)
toggling the subtask twice does not restore the goal status: the first
toggle promotes the PAUSED goal to COMPLETED and the second demotes it to
ACTIVE, so the original PAUSED status is lost. -/
theorem toggle_twice_paused_cex :
    ((pausedStore.findGoal "goal-1").map fun g => g.status) = some .PAUSED ∧
    (match toggleSubtaskCommand "user-1" "subtask-1" pausedStore with
     | .ok (_, s₁) =>
       match toggleSubtaskCommand "user-1" "subtask-1" s₁ with
       | .ok (_, s₂) => (s₂.findGoal "goal-1").map fun g => g.status
       | .error _ => none
     | .error _ => none) = some .ACTIVE := ⟨rfl, rfl⟩

/-- C3 (amended): toggling the same subtask twice restores the original
subtask and the original store — hence the original Goal.status — provided
the parent goal's status before the first toggle is ACTIVE or COMPLETED and
agrees with the completion rule (COMPLETED iff all subtasks completed), and
the stores' id keys are unique (as Map keys are).  For a PAUSED or
CANCELLED goal the double toggle can leave the goal ACTIVE or COMPLETED
instead. -/
theorem toggle_twice_roundtrip (u sid : String) (s : Store) (st₀ : Subtask) (g₀ : Goal)
    (st₁ : Subtask) (s₁ : Store)
    (hndS : (s.subtasks.map Subtask.id).Nodup)
    (hndG : (s.goals.map Goal.id).Nodup)
    (hst : s.findSubtask sid = some st₀)
    (hg : s.findGoal st₀.goalId = some g₀)
    (how : g₀.ownerId = u)
    (hstat : g₀.status = GoalStatus.ACTIVE ∨ g₀.status = GoalStatus.COMPLETED)
    (hcons : (g₀.status = GoalStatus.COMPLETED ↔
      ((s.subtasksOf st₀.goalId).all fun t => t.completed) = true))
    (h1 : toggleSubtaskCommand u sid s = .ok (st₁, s₁)) :
    toggleSubtaskCommand u sid s₁ = .ok (st₀, s) := by
  have htog := toggleSubtaskInMemory_ok u sid s st₀ g₀ hst hg how
  have hid₀ : st₀.id = sid := by simpa using List.find?_some hst
  have hgid₀ : g₀.id = st₀.goalId := by simpa using List.find?_some hg
  have hmem₀ : st₀ ∈ s.subtasks := List.mem_of_find?_eq_some hst
  have hfgid : ({ st₀ with completed := !st₀.completed } : Subtask).goalId = st₀.goalId := rfl
  have hmemA : ({ st₀ with completed := !st₀.completed } : Subtask) ∈
      (s.setSubtask { st₀ with completed := !st₀.completed }).subtasks := by
    show _ ∈ updSubtaskList _ _ s.subtasks
    unfold updSubtaskList
    exact List.mem_map.mpr ⟨st₀, hmem₀, by simp⟩
  have hneA : (s.setSubtask { st₀ with completed := !st₀.completed }).subtasksOf st₀.goalId ≠ [] := by
    have hmemf : ({ st₀ with completed := !st₀.completed } : Subtask) ∈
        (s.setSubtask { st₀ with completed := !st₀.completed }).subtasksOf st₀.goalId := by
      show _ ∈ List.filter _ _
      exact List.mem_filter.mpr ⟨hmemA, by simp⟩
    exact List.ne_nil_of_mem hmemf
  have hfgA : (s.setSubtask { st₀ with completed := !st₀.completed }).findGoal st₀.goalId = some g₀ := hg
  have hfsA : (s.setSubtask { st₀ with completed := !st₀.completed }).findSubtask sid =
      some { st₀ with completed := !st₀.completed } :=
    findSubtask_setSubtask s st₀ { st₀ with completed := !st₀.completed } sid hst hid₀
  have hflip2 : ({ { st₀ with completed := !st₀.completed } with
      completed := !({ st₀ with completed := !st₀.completed } : Subtask).completed } : Subtask) = st₀ := by
    cases st₀
    simp
  have hmemS : st₀ ∈ s.subtasksOf st₀.goalId := by
    show st₀ ∈ List.filter _ _
    exact List.mem_filter.mpr ⟨hmem₀, by simp⟩
  have hneS : s.subtasksOf st₀.goalId ≠ [] := List.ne_nil_of_mem hmemS
  have hsub2 : updSubtaskList st₀.id st₀
      (updSubtaskList st₀.id { st₀ with completed := !st₀.completed } s.subtasks) = s.subtasks := by
    rw [updSubtask_collapse s.subtasks st₀ { st₀ with completed := !st₀.completed } st₀ rfl]
    exact updSubtask_restore s.subtasks sid st₀ hndS hst
  cases hallC₀ : (s.subtasksOf st₀.goalId).all (fun t => t.completed) with
  | true =>
    have hC : g₀.status = GoalStatus.COMPLETED := hcons.mpr hallC₀
    have hst₀c : st₀.completed = true := List.all_eq_true.mp hallC₀ st₀ hmemS
    have hall1 : ((s.setSubtask { st₀ with completed := !st₀.completed }).subtasksOf st₀.goalId).all
        (fun t => t.completed) = false :=
      all_completed_false_of_mem _ st₀.goalId { st₀ with completed := !st₀.completed } hmemA rfl
        (by simp [hst₀c])
    have hchk1 := checkAndUpdate_demote u st₀.goalId
      (s.setSubtask { st₀ with completed := !st₀.completed }) g₀ hfgA how hneA hall1 hC
    have hcmd1 : toggleSubtaskCommand u sid s =
        .ok ({ st₀ with completed := !st₀.completed },
          (s.setSubtask { st₀ with completed := !st₀.completed }).setGoal
            { g₀ with status := .ACTIVE }) := by
      simp [toggleSubtaskCommand, htog, hfgid, hchk1]
    rw [hcmd1] at h1
    simp only [Except.ok.injEq, Prod.mk.injEq] at h1
    obtain ⟨h1a, h1b⟩ := h1
    subst h1a
    subst h1b
    have hfgB := findGoal_setGoal (s.setSubtask { st₀ with completed := !st₀.completed })
      g₀ { g₀ with status := GoalStatus.ACTIVE } st₀.goalId hfgA hgid₀
    have htog2 := toggleSubtaskInMemory_ok u sid
      ((s.setSubtask { st₀ with completed := !st₀.completed }).setGoal { g₀ with status := .ACTIVE })
      { st₀ with completed := !st₀.completed } { g₀ with status := .ACTIVE } hfsA hfgB how
    rw [hflip2] at htog2
    have hsubC : ((((s.setSubtask { st₀ with completed := !st₀.completed }).setGoal
        { g₀ with status := .ACTIVE }).setSubtask st₀)).subtasks = s.subtasks := hsub2
    have hsubOf := subtasksOf_congr _ s st₀.goalId hsubC
    have hneC : (((s.setSubtask { st₀ with completed := !st₀.completed }).setGoal
        { g₀ with status := .ACTIVE }).setSubtask st₀).subtasksOf st₀.goalId ≠ [] := by
      rw [hsubOf]; exact hneS
    have hallC2 : ((((s.setSubtask { st₀ with completed := !st₀.completed }).setGoal
        { g₀ with status := .ACTIVE }).setSubtask st₀).subtasksOf st₀.goalId).all
        (fun t => t.completed) = true := by
      rw [hsubOf]; exact hallC₀
    have hchk2 := checkAndUpdate_promote u st₀.goalId
      (((s.setSubtask { st₀ with completed := !st₀.completed }).setGoal
        { g₀ with status := .ACTIVE }).setSubtask st₀)
      { g₀ with status := .ACTIVE } hfgB how hneC hallC2 (by simp)
    have hcmd2 : toggleSubtaskCommand u sid
        ((s.setSubtask { st₀ with completed := !st₀.completed }).setGoal { g₀ with status := .ACTIVE }) =
        .ok (st₀, (((s.setSubtask { st₀ with completed := !st₀.completed }).setGoal
          { g₀ with status := .ACTIVE }).setSubtask st₀).setGoal
            { { g₀ with status := .ACTIVE } with status := .COMPLETED }) := by
      simp [toggleSubtaskCommand, htog2, hchk2]
    have hgEnd : ({ g₀ with status := GoalStatus.COMPLETED } : Goal) = g₀ := by
      rw [← hC]
    have hgoalsC : ((((s.setSubtask { st₀ with completed := !st₀.completed }).setGoal
        { g₀ with status := .ACTIVE }).setSubtask st₀).setGoal
          { { g₀ with status := .ACTIVE } with status := .COMPLETED }).goals = s.goals :=
      updGoal_roundtrip s.goals st₀.goalId g₀ { g₀ with status := .ACTIVE }
        { g₀ with status := .COMPLETED } hndG hg rfl hgEnd
    have hstore : ((((s.setSubtask { st₀ with completed := !st₀.completed }).setGoal
        { g₀ with status := .ACTIVE }).setSubtask st₀).setGoal
          { { g₀ with status := .ACTIVE } with status := .COMPLETED }) = s :=
      Store.ext4 _ _ hgoalsC hsubC rfl rfl
    exact hcmd2.trans (congrArg (fun x => Except.ok (st₀, x)) hstore)
  | false =>
    have hnC : g₀.status ≠ GoalStatus.COMPLETED := by
      intro hh
      have h2 := hcons.mp hh
      rw [hallC₀] at h2
      exact Bool.noConfusion h2
    have hACT : g₀.status = GoalStatus.ACTIVE := by
      rcases hstat with hh | hh
      · exact hh
      · exact absurd hh hnC
    cases hall1 : ((s.setSubtask { st₀ with completed := !st₀.completed }).subtasksOf st₀.goalId).all
        (fun t => t.completed) with
    | true =>
      have hchk1 := checkAndUpdate_promote u st₀.goalId
        (s.setSubtask { st₀ with completed := !st₀.completed }) g₀ hfgA how hneA hall1 hnC
      have hcmd1 : toggleSubtaskCommand u sid s =
          .ok ({ st₀ with completed := !st₀.completed },
            (s.setSubtask { st₀ with completed := !st₀.completed }).setGoal
              { g₀ with status := .COMPLETED }) := by
        simp [toggleSubtaskCommand, htog, hfgid, hchk1]
      rw [hcmd1] at h1
      simp only [Except.ok.injEq, Prod.mk.injEq] at h1
      obtain ⟨h1a, h1b⟩ := h1
      subst h1a
      subst h1b
      have hfgB := findGoal_setGoal (s.setSubtask { st₀ with completed := !st₀.completed })
        g₀ { g₀ with status := GoalStatus.COMPLETED } st₀.goalId hfgA hgid₀
      have htog2 := toggleSubtaskInMemory_ok u sid
        ((s.setSubtask { st₀ with completed := !st₀.completed }).setGoal { g₀ with status := .COMPLETED })
        { st₀ with completed := !st₀.completed } { g₀ with status := .COMPLETED } hfsA hfgB how
      rw [hflip2] at htog2
      have hsubC : ((((s.setSubtask { st₀ with completed := !st₀.completed }).setGoal
          { g₀ with status := .COMPLETED }).setSubtask st₀)).subtasks = s.subtasks := hsub2
      have hsubOf := subtasksOf_congr _ s st₀.goalId hsubC
      have hneC : (((s.setSubtask { st₀ with completed := !st₀.completed }).setGoal
          { g₀ with status := .COMPLETED }).setSubtask st₀).subtasksOf st₀.goalId ≠ [] := by
        rw [hsubOf]; exact hneS
      have hallC2 : ((((s.setSubtask { st₀ with completed := !st₀.completed }).setGoal
          { g₀ with status := .COMPLETED }).setSubtask st₀).subtasksOf st₀.goalId).all
          (fun t => t.completed) = false := by
        rw [hsubOf]; exact hallC₀
      have hchk2 := checkAndUpdate_demote u st₀.goalId
        (((s.setSubtask { st₀ with completed := !st₀.completed }).setGoal
          { g₀ with status := .COMPLETED }).setSubtask st₀)
        { g₀ with status := .COMPLETED } hfgB how hneC hallC2 rfl
      have hcmd2 : toggleSubtaskCommand u sid
          ((s.setSubtask { st₀ with completed := !st₀.completed }).setGoal { g₀ with status := .COMPLETED }) =
          .ok (st₀, (((s.setSubtask { st₀ with completed := !st₀.completed }).setGoal
            { g₀ with status := .COMPLETED }).setSubtask st₀).setGoal
              { { g₀ with status := .COMPLETED } with status := .ACTIVE }) := by
        simp [toggleSubtaskCommand, htog2, hchk2]
      have hgEnd : ({ g₀ with status := GoalStatus.ACTIVE } : Goal) = g₀ := by
        rw [← hACT]
      have hgoalsC : ((((s.setSubtask { st₀ with completed := !st₀.completed }).setGoal
          { g₀ with status := .COMPLETED }).setSubtask st₀).setGoal
            { { g₀ with status := .COMPLETED } with status := .ACTIVE }).goals = s.goals :=
        updGoal_roundtrip s.goals st₀.goalId g₀ { g₀ with status := .COMPLETED }
          { g₀ with status := .ACTIVE } hndG hg rfl hgEnd
      have hstore : ((((s.setSubtask { st₀ with completed := !st₀.completed }).setGoal
          { g₀ with status := .COMPLETED }).setSubtask st₀).setGoal
            { { g₀ with status := .COMPLETED } with status := .ACTIVE }) = s :=
        Store.ext4 _ _ hgoalsC hsubC rfl rfl
      exact hcmd2.trans (congrArg (fun x => Except.ok (st₀, x)) hstore)
    | false =>
      have hchk1 := checkAndUpdate_noop u st₀.goalId
        (s.setSubtask { st₀ with completed := !st₀.completed }) g₀ hfgA how hneA
        (Iff.intro (fun hh => by rw [hall1] at hh; exact Bool.noConfusion hh)
          (fun hh => absurd hh hnC))
      have hcmd1 : toggleSubtaskCommand u sid s =
          .ok ({ st₀ with completed := !st₀.completed },
            s.setSubtask { st₀ with completed := !st₀.completed }) := by
        simp [toggleSubtaskCommand, htog, hfgid, hchk1]
      rw [hcmd1] at h1
      simp only [Except.ok.injEq, Prod.mk.injEq] at h1
      obtain ⟨h1a, h1b⟩ := h1
      subst h1a
      subst h1b
      have htog2 := toggleSubtaskInMemory_ok u sid
        (s.setSubtask { st₀ with completed := !st₀.completed })
        { st₀ with completed := !st₀.completed } g₀ hfsA hfgA how
      rw [hflip2] at htog2
      have hsubC : ((s.setSubtask { st₀ with completed := !st₀.completed }).setSubtask st₀).subtasks =
          s.subtasks := hsub2
      have hsubOf := subtasksOf_congr _ s st₀.goalId hsubC
      have hneC : ((s.setSubtask { st₀ with completed := !st₀.completed }).setSubtask st₀).subtasksOf
          st₀.goalId ≠ [] := by
        rw [hsubOf]; exact hneS
      have hallC2 : (((s.setSubtask { st₀ with completed := !st₀.completed }).setSubtask
          st₀).subtasksOf st₀.goalId).all (fun t => t.completed) = false := by
        rw [hsubOf]; exact hallC₀
      have hfgC : ((s.setSubtask { st₀ with completed := !st₀.completed }).setSubtask st₀).findGoal
          st₀.goalId = some g₀ := hg
      have hchk2 := checkAndUpdate_noop u st₀.goalId
        ((s.setSubtask { st₀ with completed := !st₀.completed }).setSubtask st₀) g₀ hfgC how hneC
        (Iff.intro (fun hh => by rw [hallC2] at hh; exact Bool.noConfusion hh)
          (fun hh => absurd hh hnC))
      have hcmd2 : toggleSubtaskCommand u sid
          (s.setSubtask { st₀ with completed := !st₀.completed }) =
          .ok (st₀, (s.setSubtask { st₀ with completed := !st₀.completed }).setSubtask st₀) := by
        simp [toggleSubtaskCommand, htog2, hchk2]
      have hstore : (s.setSubtask { st₀ with completed := !st₀.completed }).setSubtask st₀ = s :=
        Store.ext4 _ _ rfl hsubC rfl rfl
      exact hcmd2.trans (congrArg (fun x => Except.ok (st₀, x)) hstore)

theorem toggle_twice_roundtrip_witness :
    toggleSubtaskCommand "user-1" "subtask-1" activeStoreToggled = .ok (originalSubtask, activeStore) :=
  toggle_twice_roundtrip "user-1" "subtask-1" activeStore originalSubtask
    ⟨"goal-1", "Launch", none, .HIGH, .ACTIVE, "user-1"⟩ toggledSubtask activeStoreToggled
    (by decide) (by decide) (by rfl) (by rfl) (by rfl) (.inl rfl) (by decide) (by rfl)

end Dashboard
